import Mathlib

/-! # focus-together: the session state machine and the session store

A shallow embedding of `server/session.go`, `server/mock/mock.go` and of the
resume handler of `server/routes.go`.

Modelling conventions.

* Go's `int64` (and `int`, taken at its 64-bit width) is an integer with
  two's-complement wrap-around: every `+`, `-` and `++` of the source is
  followed by `wrap64`.  Comparisons are the comparisons of the wrapped values.
* `Now()` is the explicit parameter `now` of every operation; one call reads
  one clock value.
* A method on `*Session` becomes a function returning the session after the
  call together with what the call returned.  A run-time panic of Go is the
  outcome `panic`, paired with the session as the panic left it.
* A Go map is its lookup function: `m k = none` when `k` is not a key.  The maps
  are the ones `CreateSession` and `main.go` allocate, never the nil map.
* `ActivityState` and `PomodoroState` are the enumerations of their constants, the
  only values the code ever assigns.
-/

namespace FocusTogether

/-! ## Machine integers -/

/-- Reduction of an integer to the `int64` range `[-2^63, 2^63)`. -/
def wrap64 (x : Int) : Int := (x + 2 ^ 63) % 2 ^ 64 - 2 ^ 63

/-- Go's `a + b` on `int64`. -/
def add64 (a b : Int) : Int := wrap64 (a + b)

/-- Go's `a - b` on `int64`. -/
def sub64 (a b : Int) : Int := wrap64 (a - b)

/-- Go's `a % b` for a non-zero divisor: the remainder of truncated division, which
has the sign of `a` and is no larger than `a` in absolute value. -/
def rem64 (a b : Int) : Int := Int.tmod a b

/-- The values an `int64` variable can hold. -/
def isInt64 (x : Int) : Prop := -(2 ^ 63) ≤ x ∧ x < 2 ^ 63

instance (x : Int) : Decidable (isInt64 x) := by
  unfold isInt64; infer_instance

/-! ## Data model (`session.go`) -/

/-- The four constants of type `ActivityState`. -/
inductive ActivityState
  | NOT_STARTED
  | IN_PROGRESS
  | PAUSED
  | STOPPED
  deriving DecidableEq, Repr

/-- The three constants of type `PomodoroState`. -/
inductive PomodoroState
  | FOCUS
  | BREAK
  | LONG_BREAK
  deriving DecidableEq, Repr

/-- The struct `Session`. -/
structure Session where
  FocusDuration : Int
  BreakDuration : Int
  LongBreakDuration : Int
  Counter : Int
  NumFocusPerLongBreak : Int
  Owner : String
  LastPing : Int
  Participants : String → Option Int
  ActivityState : ActivityState
  PomodoroState : PomodoroState
  PomodoroTime : Int
  PauseDelta : Int

/-- What a call gave back: `nil`, an error value, or a run-time panic. -/
inductive Outcome
  | ok
  | error (msg : String)
  | panic (msg : String)
  deriving DecidableEq, Repr

/-- A call that returned an error value. -/
def Outcome.failed : Outcome → Bool
  | .error _ => true
  | _ => false

/-- A call that returned `nil`. -/
def Outcome.succeeded : Outcome → Bool
  | .ok => true
  | _ => false

/-- The factory `CreateSession`; the fields it does not name take Go's zero value. -/
def CreateSession (focusDuration breakDuration longBreakDuration numFocusPerLongBreak : Int)
    (owner : String) (now : Int) : Session :=
  { FocusDuration := focusDuration
    BreakDuration := breakDuration
    LongBreakDuration := longBreakDuration
    Owner := owner
    LastPing := now
    Participants := fun _ => none
    ActivityState := .NOT_STARTED
    PomodoroState := .FOCUS
    Counter := 0
    NumFocusPerLongBreak := numFocusPerLongBreak
    PomodoroTime := 0
    PauseDelta := 0 }

/-! ## Session operations (`session.go`) -/

/-- The method `StartSession`. -/
def StartSession (s : Session) (now : Int) : Session × Outcome :=
  if s.PomodoroTime > 0 then
    (s, .error "session already started")
  else
    ({ s with ActivityState := .IN_PROGRESS, PomodoroState := .FOCUS, PomodoroTime := now }, .ok)

/-- The method `PauseSession`. -/
def PauseSession (s : Session) (now : Int) : Session × Outcome :=
  if s.ActivityState = .PAUSED then
    (s, .error "activity already paused")
  else
    ({ s with ActivityState := .PAUSED, PauseDelta := sub64 now s.PomodoroTime }, .ok)

/-- The method `ResumeSession`. -/
def ResumeSession (s : Session) (now : Int) : Session × Outcome :=
  if s.ActivityState = .IN_PROGRESS then
    (s, .error "session already in progress")
  else
    ({ s with ActivityState := .IN_PROGRESS, PomodoroTime := sub64 now s.PauseDelta }, .ok)

/-- The duration the phase-advance check compares against in the current phase. -/
def Session.phaseDuration (s : Session) : Int :=
  match s.PomodoroState with
  | .FOCUS => s.FocusDuration
  | .BREAK => s.BreakDuration
  | .LONG_BREAK => s.LongBreakDuration

/-- The method `UpdateSessionPomodoroState`.  In the FOCUS branch the counter is
incremented before `s.Counter % s.NumFocusPerLongBreak` is evaluated, and that
expression panics on a zero divisor. -/
def UpdateSessionPomodoroState (s : Session) (now : Int) : Session × Outcome :=
  if s.PomodoroState = .FOCUS then
    if now < add64 s.PomodoroTime s.FocusDuration then
      (s, .ok)
    else
      let s1 := { s with Counter := add64 s.Counter 1 }
      if s1.NumFocusPerLongBreak = 0 then
        (s1, .panic "runtime error: integer divide by zero")
      else if rem64 s1.Counter s1.NumFocusPerLongBreak = 0 then
        ({ s1 with PomodoroState := .LONG_BREAK, PomodoroTime := now }, .ok)
      else
        ({ s1 with PomodoroState := .BREAK, PomodoroTime := now }, .ok)
  else if s.PomodoroState = .BREAK then
    if now < add64 s.PomodoroTime s.BreakDuration then
      (s, .ok)
    else
      ({ s with PomodoroState := .FOCUS, PomodoroTime := now }, .ok)
  else
    if now < add64 s.PomodoroTime s.LongBreakDuration then
      (s, .ok)
    else
      ({ s with PomodoroState := .FOCUS, PomodoroTime := now }, .ok)

/-- The method `StopSessionInactivity`: a pure query. -/
def StopSessionInactivity (s : Session) (now : Int) : Session × Bool × Outcome :=
  if now < add64 s.LastPing 300000 then
    (s, false, .ok)
  else
    (s, true, .ok)

/-- The method `StopSession`. -/
def StopSession (s : Session) : Session × Outcome :=
  if s.ActivityState = .STOPPED then
    (s, .error "activity already stopped")
  else
    ({ s with ActivityState := .STOPPED }, .ok)

/-- The method `PingSession`. -/
def PingSession (s : Session) (now : Int) : Session × Outcome :=
  ({ s with LastPing := now }, .ok)

/-- The method `PingParticipant`. -/
def PingParticipant (s : Session) (participant : String) (now : Int) : Session × Outcome :=
  match s.Participants participant with
  | none => (s, .error "participant not in session")
  | some _ =>
    ({ s with Participants := Function.update s.Participants participant (some now) }, .ok)

/-- The method `DeleteParticipant`. -/
def DeleteParticipant (s : Session) (participant : String) : Session × Bool × Outcome :=
  match s.Participants participant with
  | none => (s, false, .error "participant not in session")
  | some _ =>
    ({ s with Participants := Function.update s.Participants participant none }, true, .ok)

/-- The method `DeleteParticipantInactivity`. -/
def DeleteParticipantInactivity (s : Session) (participant : String) (now : Int) :
    Session × Bool × Outcome :=
  match s.Participants participant with
  | none => (s, false, .error "participant not in session")
  | some lastPing =>
    if now < add64 lastPing 300000 then
      (s, false, .ok)
    else
      DeleteParticipant s participant

/-- The method `JoinSession`. -/
def JoinSession (s : Session) (participant : String) (now : Int) : Session × Outcome :=
  match s.Participants participant with
  | some _ => (s, .error "participant already in session")
  | none =>
    ({ s with Participants := Function.update s.Participants participant (some now) }, .ok)

/-! ## Sequences of operations -/

/-- One call of a mutating session method, with the clock value it reads. -/
inductive Op
  | start (now : Int)
  | pause (now : Int)
  | resume (now : Int)
  | stop
  | update (now : Int)
  | ping (now : Int)
  | join (p : String) (now : Int)
  | pingParticipant (p : String) (now : Int)
  | deleteParticipant (p : String)
  | deleteParticipantInactivity (p : String) (now : Int)

/-- The session after the call, the boolean it returned (`false` for the methods
that return only an error) and its outcome. -/
def step (s : Session) : Op → Session × Bool × Outcome
  | .start now => ((StartSession s now).1, false, (StartSession s now).2)
  | .pause now => ((PauseSession s now).1, false, (PauseSession s now).2)
  | .resume now => ((ResumeSession s now).1, false, (ResumeSession s now).2)
  | .stop => ((StopSession s).1, false, (StopSession s).2)
  | .update now =>
    ((UpdateSessionPomodoroState s now).1, false, (UpdateSessionPomodoroState s now).2)
  | .ping now => ((PingSession s now).1, false, (PingSession s now).2)
  | .join p now => ((JoinSession s p now).1, false, (JoinSession s p now).2)
  | .pingParticipant p now => ((PingParticipant s p now).1, false, (PingParticipant s p now).2)
  | .deleteParticipant p => DeleteParticipant s p
  | .deleteParticipantInactivity p now => DeleteParticipantInactivity s p now

/-- The session after a sequence of calls, each applied to the result of the one before. -/
def run (s : Session) : List Op → Session
  | [] => s
  | op :: ops => run (step s op).1 ops

/-- Some `StartSession` of the sequence returned `nil`. -/
def everStarted (s : Session) : List Op → Bool
  | [] => false
  | .start now :: ops =>
    (StartSession s now).2.succeeded || everStarted (step s (.start now)).1 ops
  | op :: ops => everStarted (step s op).1 ops

/-- The calls that leave the writing of `PomodoroTime` to `StartSession`: every call but
`ResumeSession` and `UpdateSessionPomodoroState`, and of `StartSession` the calls at a
clock reading other than 0. -/
def Op.leavesPomodoroTimeToStart : Op → Bool
  | .resume _ => false
  | .update _ => false
  | .start now => decide (now ≠ 0)
  | _ => true

/-- The call assigns `PomodoroTime`: a `StartSession` or `ResumeSession` that returned
`nil`, or an `UpdateSessionPomodoroState` that returned `nil` after it found the duration
of the current phase elapsed. -/
def assignsPomodoroTime (s : Session) : Op → Bool
  | .start now => (StartSession s now).2.succeeded
  | .resume now => (ResumeSession s now).2.succeeded
  | .update now =>
    !decide (now < add64 s.PomodoroTime s.phaseDuration)
      && (UpdateSessionPomodoroState s now).2.succeeded
  | _ => false

/-- Some call of the sequence assigned `PomodoroTime`. -/
def everAssigned (s : Session) : List Op → Bool
  | [] => false
  | op :: ops => assignsPomodoroTime s op || everAssigned (step s op).1 ops

/-- The call is an `UpdateSessionPomodoroState` that finds the session in FOCUS with
the focus duration elapsed: it completes a focus phase. -/
def completesFocus (s : Session) : Op → Bool
  | .update now =>
    decide (s.PomodoroState = .FOCUS) && !decide (now < add64 s.PomodoroTime s.FocusDuration)
  | _ => false

/-- The number of focus phases completed along the sequence. -/
def focusCompletions (s : Session) : List Op → Nat
  | [] => 0
  | op :: ops => (if completesFocus s op then 1 else 0) + focusCompletions (step s op).1 ops

/-- The call adds participant `p`: a `JoinSession(p)` that returned `nil`. -/
def joins (s : Session) (p : String) : Op → Bool
  | .join q now => decide (q = p) && (step s (.join q now)).2.2.succeeded
  | _ => false

/-- The call removes participant `p`: a `DeleteParticipant(p)` or
`DeleteParticipantInactivity(p)` that returned `true`. -/
def removes (s : Session) (p : String) : Op → Bool
  | .deleteParticipant q => decide (q = p) && (step s (.deleteParticipant q)).2.1
  | .deleteParticipantInactivity q now =>
    decide (q = p) && (step s (.deleteParticipantInactivity q now)).2.1
  | _ => false

/-- Participant `p` has joined and has not since been removed, along the sequence;
`init` is the answer before the first call. -/
def joinedNotRemoved (p : String) (init : Bool) (s : Session) : List Op → Bool
  | [] => init
  | op :: ops =>
    joinedNotRemoved p (if joins s p op then true else if removes s p op then false else init)
      (step s op).1 ops

/-! ## The session store (`mock/mock.go`) -/

/-- The struct `MockDatabase`.  The map holds pointers in the source; here an entry
is the session the pointer leads to. -/
structure MockDatabase where
  Sessions : String → Option Session

/-- The method `MockDatabase.CreateSession`. -/
def MockDatabase.CreateSession (db : MockDatabase) (session : Session) :
    MockDatabase × Outcome :=
  ({ Sessions := Function.update db.Sessions session.Owner (some session) }, .ok)

/-- The method `MockDatabase.GetSession`; the error text is that of the `Errorf` call. -/
def MockDatabase.GetSession (db : MockDatabase) (id : String) : Option Session × Outcome :=
  match db.Sessions id with
  | none => (none, .error ("unable to find session with id: " ++ id))
  | some session => (some session, .ok)

/-- The method `MockDatabase.DeleteSession`. -/
def MockDatabase.DeleteSession (db : MockDatabase) (id : String) : MockDatabase × Outcome :=
  ({ Sessions := Function.update db.Sessions id none }, .ok)

/-! ## The resume handler (`routes.go`) -/

/-- The struct `ErrorResponse`. -/
structure ErrorResponse where
  Name : String
  Message : String
  deriving DecidableEq, Repr

/-- The struct `SessionSettings`. -/
structure SessionSettings where
  FocusDuration : Int
  BreakDuration : Int
  LongBreakDuration : Int
  NumFocusPerLongBreak : Int
  deriving DecidableEq, Repr

/-- The struct `SessionBody`. -/
structure SessionBody where
  Settings : SessionSettings
  ActivityState : ActivityState
  PomodoroState : PomodoroState
  PomodoroTime : Int
  deriving DecidableEq, Repr

/-- What a handler hands to `c.JSON`: a status code with an error or a session body. -/
inductive Response
  | failure (code : Nat) (body : ErrorResponse)
  | session (code : Nat) (body : SessionBody)
  deriving DecidableEq, Repr

/-- The variable `MissingUserIDResponse`. -/
def MissingUserIDResponse : ErrorResponse :=
  { Name := "MissingUserID", Message := "id key is not in context" }

/-- The function `formatSessionBody`. -/
def formatSessionBody (session : Session) : SessionBody :=
  { Settings :=
      { FocusDuration := session.FocusDuration
        BreakDuration := session.BreakDuration
        LongBreakDuration := session.LongBreakDuration
        NumFocusPerLongBreak := session.NumFocusPerLongBreak }
    ActivityState := session.ActivityState
    PomodoroState := session.PomodoroState
    PomodoroTime := session.PomodoroTime }

/-- The text `%v` prints for an error value. -/
def Outcome.text : Outcome → String
  | .ok => "<nil>"
  | .error msg => msg
  | .panic msg => msg

/-- The handler `resumeSessionEndpoint` over a `MockDatabase`.  `userID` is what
`c.Get("id")` finds in the request context.  The handler works on the pointer the
store returned, so the session it leaves is the store entry under `userID`. -/
def resumeSessionEndpoint (db : MockDatabase) (userID : Option String) (now : Int) :
    MockDatabase × Response :=
  match userID with
  | none => (db, .failure 400 MissingUserIDResponse)
  | some id =>
    match db.GetSession id with
    | (none, err) =>
      (db, .failure 400
        { Name := "DatabaseErr"
          Message := "unable to find session for user " ++ id ++ ": " ++ err.text })
    | (some session, _) =>
      match PauseSession session now with
      | (session1, .ok) =>
        ({ Sessions := Function.update db.Sessions id (some session1) },
          .session 200 (formatSessionBody session1))
      | (session1, err) =>
        ({ Sessions := Function.update db.Sessions id (some session1) },
          .failure 400
            { Name := "ResumeSessionError"
              Message := "unable to resume session: " ++ err.text })

/-! ## Sessions of the scenarios -/

/-- The session of the spec's scenarios: focus 1000, break 500, long break 2000, a long
break every `n` focus phases, owner "u1", created and started at clock reading 0. -/
def startedAtZero (n : Int) : Session :=
  (StartSession (CreateSession 1000 500 2000 n "u1" 0) 0).1

/-- A session whose three durations are the largest `int64`, created at 0 and started at
clock reading 1000. -/
def longestDurations : Session :=
  (StartSession
    (CreateSession (2 ^ 63 - 1) (2 ^ 63 - 1) (2 ^ 63 - 1) 3 "u1" 0) 1000).1

/-- A session with the same durations, created and started at clock reading
1790000000000, a millisecond timestamp of the year 2026. -/
def longestDurationsToday : Session :=
  (StartSession
    (CreateSession (2 ^ 63 - 1) (2 ^ 63 - 1) (2 ^ 63 - 1) 3 "u1" 1790000000000)
    1790000000000).1

/-- The store of `main.go`, an empty map, after `CreateSession(s)`. -/
def storeWith (s : Session) : MockDatabase :=
  (MockDatabase.CreateSession { Sessions := fun _ => none } s).1

/-! ## Arithmetic of `wrap64` -/

theorem wrap64_of_isInt64 {x : Int} (h : isInt64 x) : wrap64 x = x := by
  unfold isInt64 at h
  unfold wrap64
  omega

theorem isInt64_wrap64 (x : Int) : isInt64 (wrap64 x) := by
  unfold isInt64 wrap64
  omega

/-! ## What one call changes -/

theorem step_NumFocusPerLongBreak (s : Session) (op : Op) :
    (step s op).1.NumFocusPerLongBreak = s.NumFocusPerLongBreak := by
  cases op <;>
    simp only [step, StartSession, PauseSession, ResumeSession, StopSession,
      UpdateSessionPomodoroState, PingSession, JoinSession, PingParticipant,
      DeleteParticipant, DeleteParticipantInactivity] <;>
    repeat' (first | rfl | split)

theorem step_Counter (s : Session) (op : Op) :
    (step s op).1.Counter = if completesFocus s op then add64 s.Counter 1 else s.Counter := by
  cases op <;>
    simp only [step, completesFocus, StartSession, PauseSession, ResumeSession, StopSession,
      UpdateSessionPomodoroState, PingSession, JoinSession, PingParticipant,
      DeleteParticipant, DeleteParticipantInactivity] <;>
    (repeat' (first | rfl | split)) <;> simp_all

theorem run_append (s : Session) (ops ops' : List Op) :
    run s (ops ++ ops') = run (run s ops) ops' := by
  induction ops generalizing s with
  | nil => rfl
  | cons op ops ih => exact ih (step s op).1

theorem run_NumFocusPerLongBreak (s : Session) (ops : List Op) :
    (run s ops).NumFocusPerLongBreak = s.NumFocusPerLongBreak := by
  induction ops generalizing s with
  | nil => rfl
  | cons op ops ih => simp only [run, ih (step s op).1, step_NumFocusPerLongBreak]

/-- As long as the count stays below `2^63`, the counter is the counter at the start plus
the number of focus phases completed since. -/
theorem run_Counter (s : Session) (ops : List Op) (h0 : 0 ≤ s.Counter)
    (h : s.Counter + focusCompletions s ops < 2 ^ 63) :
    (run s ops).Counter = s.Counter + focusCompletions s ops := by
  induction ops generalizing s with
  | nil => simp [focusCompletions, run]
  | cons op ops ih =>
    simp only [focusCompletions, run] at h ⊢
    have hc := step_Counter s op
    by_cases hcf : completesFocus s op = true
    · simp only [hcf, if_true] at hc h
      have h1 : add64 s.Counter 1 = s.Counter + 1 := by
        unfold add64 wrap64; omega
      rw [h1] at hc
      rw [ih (step s op).1 (by omega) (by rw [hc]; push_cast at h ⊢; omega), hc]
      simp only [hcf, if_true]
      push_cast
      omega
    · simp only [hcf] at hc h
      simp only [Bool.false_eq_true, if_false] at hc h
      rw [ih (step s op).1 (by omega) (by rw [hc]; push_cast at h ⊢; omega), hc]
      simp [hcf]

/-! ## Pause and resume -/

/-- While the phase is FOCUS and `NumFocusPerLongBreak` is 0, a check that finds the focus
duration elapsed increments the counter and then panics on the zero divisor. -/
theorem update_panics_on_zero_divisor (s : Session) (now : Int)
    (hF : s.PomodoroState = .FOCUS) (hN : s.NumFocusPerLongBreak = 0)
    (hT : ¬ now < add64 s.PomodoroTime s.FocusDuration) :
    UpdateSessionPomodoroState s now
      = ({ s with Counter := add64 s.Counter 1 },
          .panic "runtime error: integer divide by zero") := by
  unfold UpdateSessionPomodoroState
  simp [hF, hN, hT]

/-- C1, as stated, fails: take the three durations at the largest `int64` (positive, a long
break every 3 focus phases), start at 1000, pause at 1400 and resume at 1900.  Both calls
succeed and `PomodoroTime` is 1000 + (1900 - 1400) = 1500, but `1500 + FocusDuration`
wraps around below every clock reading after the epoch: an update at 2000 enters BREAK
although 2000 is before 1900 + (D - (1400 - 1000)), the time the claim says remains.
The same happens at clock readings of the year 2026. -/
theorem pause_resume_overflow_counterexample :
    longestDurations.ActivityState = .IN_PROGRESS ∧
    0 < longestDurations.NumFocusPerLongBreak ∧
    0 < longestDurations.phaseDuration ∧ isInt64 longestDurations.phaseDuration ∧
    (PauseSession longestDurations 1400).2 = .ok ∧
    (ResumeSession (PauseSession longestDurations 1400).1 1900).2 = .ok ∧
    (ResumeSession (PauseSession longestDurations 1400).1 1900).1.PomodoroTime
      = longestDurations.PomodoroTime + (1900 - 1400) ∧
    (UpdateSessionPomodoroState
      (ResumeSession (PauseSession longestDurations 1400).1 1900).1 2000).1.PomodoroState
      = .BREAK ∧
    ¬ ((UpdateSessionPomodoroState
        (ResumeSession (PauseSession longestDurations 1400).1 1900).1 2000).1.PomodoroState
        = longestDurations.PomodoroState ↔
      (2000 : Int) < 1900 + (longestDurations.phaseDuration
        - (1400 - longestDurations.PomodoroTime))) ∧
    ¬ ((UpdateSessionPomodoroState
        (ResumeSession (PauseSession longestDurationsToday 1790000000400).1
          1790000000900).1 1790000001000).1.PomodoroState
        = longestDurationsToday.PomodoroState ↔
      (1790000001000 : Int) < 1790000000900 + (longestDurationsToday.phaseDuration
        - (1790000000400 - longestDurationsToday.PomodoroTime))) := by
  decide

/-- C1 (amended): for every IN_PROGRESS session with a non-zero `NumFocusPerLongBreak`
(the data model requires a positive one), with phase start `P` and current-phase duration
`D`, `PauseSession` at `t1` followed by `ResumeSession` at `t2` both succeed and leave
`PomodoroTime = P + (t2 - t1)`, and a following `UpdateSessionPomodoroState` at `t` leaves
the phase unchanged iff `t < t2 + (D - (t1 - P))`, where the sums are the `int64` sums
the code computes; they are the plain integer sums, so that exactly the time that
remained at the pause is still to run, whenever these fit in an `int64`. -/
theorem pause_resume_preserves_remaining_time (s : Session) (t1 t2 t : Int)
    (hs : s.ActivityState = .IN_PROGRESS) (hN : s.NumFocusPerLongBreak ≠ 0) :
    (PauseSession s t1).2 = .ok ∧
    (ResumeSession (PauseSession s t1).1 t2).2 = .ok ∧
    (ResumeSession (PauseSession s t1).1 t2).1.PomodoroTime
      = add64 s.PomodoroTime (sub64 t2 t1) ∧
    ((UpdateSessionPomodoroState (ResumeSession (PauseSession s t1).1 t2).1 t).1.PomodoroState
        = s.PomodoroState ↔
      t < add64 t2 (sub64 s.phaseDuration (sub64 t1 s.PomodoroTime))) ∧
    (isInt64 (s.PomodoroTime + (t2 - t1)) →
      (ResumeSession (PauseSession s t1).1 t2).1.PomodoroTime = s.PomodoroTime + (t2 - t1)) ∧
    (isInt64 (t2 + (s.phaseDuration - (t1 - s.PomodoroTime))) →
      ((UpdateSessionPomodoroState
          (ResumeSession (PauseSession s t1).1 t2).1 t).1.PomodoroState = s.PomodoroState ↔
        t < t2 + (s.phaseDuration - (t1 - s.PomodoroTime)))) := by
  have hp : PauseSession s t1
      = ({ s with ActivityState := .PAUSED, PauseDelta := sub64 t1 s.PomodoroTime }, .ok) := by
    simp [PauseSession, hs]
  have hr : ResumeSession (PauseSession s t1).1 t2
      = ({ s with ActivityState := .IN_PROGRESS, PauseDelta := sub64 t1 s.PomodoroTime,
                  PomodoroTime := sub64 t2 (sub64 t1 s.PomodoroTime) }, .ok) := by
    simp [hp, ResumeSession]
  have hT : sub64 t2 (sub64 t1 s.PomodoroTime) = add64 s.PomodoroTime (sub64 t2 t1) := by
    unfold sub64 add64 wrap64; omega
  have hU : ((UpdateSessionPomodoroState
        (ResumeSession (PauseSession s t1).1 t2).1 t).1.PomodoroState = s.PomodoroState ↔
      t < add64 t2 (sub64 s.phaseDuration (sub64 t1 s.PomodoroTime))) := by
    have hD : ∀ d : Int, add64 (sub64 t2 (sub64 t1 s.PomodoroTime)) d
        = add64 t2 (sub64 d (sub64 t1 s.PomodoroTime)) := by
      intro d; unfold sub64 add64 wrap64; omega
    rw [hr]
    unfold UpdateSessionPomodoroState Session.phaseDuration
    cases hph : s.PomodoroState <;> simp only [hD] <;> split_ifs <;> simp_all
  refine ⟨by rw [hp], by rw [hr], by rw [hr]; exact hT, hU, ?_, ?_⟩
  · intro h
    rw [hr]
    show sub64 t2 (sub64 t1 s.PomodoroTime) = _
    rw [hT]
    have := wrap64_of_isInt64 h
    unfold add64 sub64 wrap64 at *
    omega
  · intro h
    rw [hU]
    have := wrap64_of_isInt64 h
    unfold add64 sub64 wrap64 at *
    omega

/-- C1, witness: the scenario of the spec with a long break every 3 focus phases; the
phase is unchanged at 1499 and has advanced at 1501. -/
theorem pause_resume_preserves_remaining_time_witness :
    (startedAtZero 3).ActivityState = .IN_PROGRESS ∧
    (startedAtZero 3).NumFocusPerLongBreak ≠ 0 ∧
    ((UpdateSessionPomodoroState
        (ResumeSession (PauseSession (startedAtZero 3) 400).1 900).1 1499).1.PomodoroState
        = (startedAtZero 3).PomodoroState ↔
      (1499 : Int) < add64 900 (sub64 (startedAtZero 3).phaseDuration
        (sub64 400 (startedAtZero 3).PomodoroTime))) ∧
    (UpdateSessionPomodoroState
        (ResumeSession (PauseSession (startedAtZero 3) 400).1 900).1 1499).1.PomodoroState
      = .FOCUS ∧
    (UpdateSessionPomodoroState
        (ResumeSession (PauseSession (startedAtZero 3) 400).1 900).1 1501).1.PomodoroState
      = .BREAK :=
  ⟨by decide, by decide,
    (pause_resume_preserves_remaining_time (startedAtZero 3) 400 900 1499
      (by decide) (by decide)).2.2.2.1,
    by decide, by decide⟩

/-! ## The phase-advance algorithm -/

/-- C2, as stated, fails: with the three durations at the largest `int64` (positive, which
`createSessionEndpoint` accepts) and a long break every 3 focus phases, a session started
at 1000 and checked at 1000 enters BREAK with counter 1, although 1000 is before
`PomodoroTime` plus the focus duration: the `int64` sum wraps around below `now`.  The
same happens at clock readings of the year 2026. -/
theorem update_phase_advance_overflow_counterexample :
    0 < longestDurations.NumFocusPerLongBreak ∧
    0 < longestDurations.phaseDuration ∧ isInt64 longestDurations.phaseDuration ∧
    (1000 : Int) < longestDurations.PomodoroTime + longestDurations.phaseDuration ∧
    longestDurations.PomodoroState = .FOCUS ∧ longestDurations.Counter = 0 ∧
    (UpdateSessionPomodoroState longestDurations 1000).1.PomodoroState = .BREAK ∧
    (UpdateSessionPomodoroState longestDurations 1000).1.Counter = 1 ∧
    0 < longestDurationsToday.NumFocusPerLongBreak ∧
    (1790000000001 : Int)
      < longestDurationsToday.PomodoroTime + longestDurationsToday.phaseDuration ∧
    longestDurationsToday.PomodoroState = .FOCUS ∧ longestDurationsToday.Counter = 0 ∧
    (UpdateSessionPomodoroState longestDurationsToday 1790000000001).1.PomodoroState
      = .BREAK ∧
    (UpdateSessionPomodoroState longestDurationsToday 1790000000001).1.Counter = 1 := by
  decide

/-- C2 (amended): for a session whose `NumFocusPerLongBreak` is `n > 0` and every clock
reading, `UpdateSessionPomodoroState` changes nothing while `now` is before the `int64` sum
of `PomodoroTime` and the duration of the current phase, as the code computes it;
otherwise it returns `nil`, sets `PomodoroTime` to `now` and makes one transition: from
FOCUS the counter goes up by one (`int` arithmetic) and the new phase is LONG_BREAK iff
the new counter is a multiple of `n`, else BREAK; from BREAK or LONG_BREAK the new phase
is FOCUS and the counter is unchanged.  Whenever `PomodoroTime` plus the duration fits in
an `int64`, the threshold is the plain sum.  Hence, along any sequence of calls on a new
session, the `k`-th completed focus phase (`k` within `int`) leaves the counter at `k`
and is followed by LONG_BREAK iff `k mod n = 0`, else by BREAK. -/
theorem update_implements_phase_advance (n : Int) (hn : 0 < n) :
    (∀ (s : Session) (now : Int), s.NumFocusPerLongBreak = n →
      (now < add64 s.PomodoroTime s.phaseDuration →
        UpdateSessionPomodoroState s now = (s, .ok)) ∧
      (¬ now < add64 s.PomodoroTime s.phaseDuration →
        (UpdateSessionPomodoroState s now).2 = .ok ∧
        (UpdateSessionPomodoroState s now).1.PomodoroTime = now ∧
        (s.PomodoroState = .FOCUS →
          (UpdateSessionPomodoroState s now).1.Counter = add64 s.Counter 1 ∧
          (isInt64 (s.Counter + 1) →
            (UpdateSessionPomodoroState s now).1.Counter = s.Counter + 1) ∧
          ((UpdateSessionPomodoroState s now).1.PomodoroState = .LONG_BREAK ↔
            n ∣ (UpdateSessionPomodoroState s now).1.Counter) ∧
          ((UpdateSessionPomodoroState s now).1.PomodoroState = .BREAK ↔
            ¬ n ∣ (UpdateSessionPomodoroState s now).1.Counter)) ∧
        (s.PomodoroState ≠ .FOCUS →
          (UpdateSessionPomodoroState s now).1.PomodoroState = .FOCUS ∧
          (UpdateSessionPomodoroState s now).1.Counter = s.Counter))) ∧
    (∀ (s : Session) (now : Int), isInt64 (s.PomodoroTime + s.phaseDuration) →
      (now < add64 s.PomodoroTime s.phaseDuration ↔
        now < s.PomodoroTime + s.phaseDuration)) ∧
    (∀ (f b l : Int) (owner : String) (t0 : Int) (ops : List Op) (now : Int),
      completesFocus (run (CreateSession f b l n owner t0) ops) (.update now) = true →
      focusCompletions (CreateSession f b l n owner t0) ops + 1 < 2 ^ 63 →
      (run (CreateSession f b l n owner t0) (ops ++ [.update now])).Counter
        = (focusCompletions (CreateSession f b l n owner t0) ops + 1 : Nat) ∧
      ((run (CreateSession f b l n owner t0) (ops ++ [.update now])).PomodoroState
          = .LONG_BREAK ↔
        ((focusCompletions (CreateSession f b l n owner t0) ops + 1 : Nat) : Int) % n = 0) ∧
      ((run (CreateSession f b l n owner t0) (ops ++ [.update now])).PomodoroState
          = .BREAK ↔
        ((focusCompletions (CreateSession f b l n owner t0) ops + 1 : Nat) : Int) % n ≠ 0)) := by
  have hn0 : n ≠ 0 := by omega
  have one : ∀ (s : Session) (now : Int), s.NumFocusPerLongBreak = n →
      (now < add64 s.PomodoroTime s.phaseDuration →
        UpdateSessionPomodoroState s now = (s, .ok)) ∧
      (¬ now < add64 s.PomodoroTime s.phaseDuration →
        (UpdateSessionPomodoroState s now).2 = .ok ∧
        (UpdateSessionPomodoroState s now).1.PomodoroTime = now ∧
        (s.PomodoroState = .FOCUS →
          (UpdateSessionPomodoroState s now).1.Counter = add64 s.Counter 1 ∧
          (isInt64 (s.Counter + 1) →
            (UpdateSessionPomodoroState s now).1.Counter = s.Counter + 1) ∧
          ((UpdateSessionPomodoroState s now).1.PomodoroState = .LONG_BREAK ↔
            n ∣ (UpdateSessionPomodoroState s now).1.Counter) ∧
          ((UpdateSessionPomodoroState s now).1.PomodoroState = .BREAK ↔
            ¬ n ∣ (UpdateSessionPomodoroState s now).1.Counter)) ∧
        (s.PomodoroState ≠ .FOCUS →
          (UpdateSessionPomodoroState s now).1.PomodoroState = .FOCUS ∧
          (UpdateSessionPomodoroState s now).1.Counter = s.Counter)) := by
    intro s now hs
    subst hs
    unfold UpdateSessionPomodoroState Session.phaseDuration
    cases hph : s.PomodoroState
    · -- FOCUS
      refine ⟨fun h => by simp [h], fun h => ?_⟩
      simp only [if_true, h, if_false, hn0]
      by_cases hd : rem64 (add64 s.Counter 1) s.NumFocusPerLongBreak = 0
      · have hdvd : s.NumFocusPerLongBreak ∣ add64 s.Counter 1 :=
          Int.dvd_iff_tmod_eq_zero.mpr hd
        simp only [hd, if_true]
        refine ⟨by trivial, by trivial,
          fun _ => ⟨by trivial, fun hr => ?_, by simp [hdvd], by simp [hdvd]⟩,
          fun hne => absurd rfl hne⟩
        exact wrap64_of_isInt64 hr
      · have hdvd : ¬ s.NumFocusPerLongBreak ∣ add64 s.Counter 1 :=
          fun h' => hd (Int.dvd_iff_tmod_eq_zero.mp h')
        simp only [hd, if_false]
        refine ⟨by trivial, by trivial,
          fun _ => ⟨by trivial, fun hr => ?_, by simp [hdvd], by simp [hdvd]⟩,
          fun hne => absurd rfl hne⟩
        exact wrap64_of_isInt64 hr
    · -- BREAK
      refine ⟨fun h => by simp [h], fun h => ?_⟩
      simp [h]
    · -- LONG_BREAK
      refine ⟨fun h => by simp [h], fun h => ?_⟩
      simp [h]
  refine ⟨one, fun s now h => by rw [show add64 _ _ = _ from wrap64_of_isInt64 h], ?_⟩
  intro f b l owner t0 ops now hc hk
  have hN : (run (CreateSession f b l n owner t0) ops).NumFocusPerLongBreak = n := by
    rw [run_NumFocusPerLongBreak]; rfl
  have hC : (run (CreateSession f b l n owner t0) ops).Counter
      = (focusCompletions (CreateSession f b l n owner t0) ops : Nat) := by
    have := run_Counter (CreateSession f b l n owner t0) ops (le_refl _)
      (by show (0 : Int) + _ < _; push_cast at hk ⊢; omega)
    rw [this]
    show (0 : Int) + _ = _
    omega
  have hrun : run (CreateSession f b l n owner t0) (ops ++ [.update now])
      = (UpdateSessionPomodoroState (run (CreateSession f b l n owner t0) ops) now).1 := by
    rw [run_append]; rfl
  simp only [completesFocus, Bool.and_eq_true, decide_eq_true_eq, Bool.not_eq_true',
    decide_eq_false_iff_not] at hc
  obtain ⟨hF, hT⟩ := hc
  have hT' : ¬ now < add64 (run (CreateSession f b l n owner t0) ops).PomodoroTime
      (run (CreateSession f b l n owner t0) ops).phaseDuration := by
    simpa [Session.phaseDuration, hF] using hT
  obtain ⟨-, -, hfocus, -⟩ := (one _ now hN).2 hT'
  obtain ⟨hc1, hc2, hlb, hb⟩ := hfocus hF
  have hcount : (UpdateSessionPomodoroState (run (CreateSession f b l n owner t0) ops) now).1.Counter
      = ((focusCompletions (CreateSession f b l n owner t0) ops + 1 : Nat) : Int) := by
    rw [hc2 (by rw [hC]; unfold isInt64; push_cast at hk ⊢; omega), hC]
    push_cast
    rfl
  rw [hrun]
  rw [hcount] at hlb hb
  refine ⟨hcount, ?_, ?_⟩
  · rw [hlb, Int.dvd_iff_emod_eq_zero]
  · rw [hb, Int.dvd_iff_emod_eq_zero]

/-- C2, witness: the end-to-end scenario of the spec (a long break every 3 focus phases)
and the cycle with a long break every 2 focus phases. -/
theorem update_implements_phase_advance_witness :
    (0 : Int) < 3 ∧ (0 : Int) < 2 ∧
    UpdateSessionPomodoroState (startedAtZero 3) 999 = (startedAtZero 3, .ok) ∧
    (UpdateSessionPomodoroState (startedAtZero 3) 999).1.PomodoroState = .FOCUS ∧
    (UpdateSessionPomodoroState (startedAtZero 3) 999).1.Counter = 0 ∧
    (UpdateSessionPomodoroState (startedAtZero 3) 1000).1.PomodoroState = .BREAK ∧
    (UpdateSessionPomodoroState (startedAtZero 3) 1000).1.Counter = 1 ∧
    (UpdateSessionPomodoroState (startedAtZero 3) 1000).1.PomodoroTime = 1000 ∧
    (run (startedAtZero 3) [.update 1000, .update 1500]).PomodoroState = .FOCUS ∧
    (run (startedAtZero 3) [.update 1000, .update 1500]).Counter = 1 ∧
    (run (startedAtZero 3) [.update 1000, .update 1500]).PomodoroTime = 1500 ∧
    (run (CreateSession 1000 500 2000 2 "u1" 0) [.start 0, .update 1000]).PomodoroState
      = .BREAK ∧
    isInt64 ((startedAtZero 3).PomodoroTime + (startedAtZero 3).phaseDuration) ∧
    ((999 : Int) < add64 (startedAtZero 3).PomodoroTime (startedAtZero 3).phaseDuration ↔
      999 < (startedAtZero 3).PomodoroTime + (startedAtZero 3).phaseDuration) ∧
    ((run (CreateSession 1000 500 2000 2 "u1" 0)
        ([.start 0, .update 1000, .update 1500] ++ [.update 2500])).PomodoroState
        = .LONG_BREAK ↔
      ((focusCompletions (CreateSession 1000 500 2000 2 "u1" 0)
        [.start 0, .update 1000, .update 1500] + 1 : Nat) : Int) % 2 = 0) ∧
    (run (CreateSession 1000 500 2000 2 "u1" 0)
      [.start 0, .update 1000, .update 1500, .update 2500]).PomodoroState = .LONG_BREAK :=
  ⟨by decide, by decide,
    ((update_implements_phase_advance 3 (by decide)).1 (startedAtZero 3) 999 rfl).1
      (by decide),
    by decide, by decide, by decide, by decide, by decide, by decide, by decide, by decide,
    by decide, by decide,
    (update_implements_phase_advance 3 (by decide)).2.1 (startedAtZero 3) 999 (by decide),
    ((update_implements_phase_advance 2 (by decide)).2.2 1000 500 2000 "u1" 0
      [.start 0, .update 1000, .update 1500] 2500 (by decide) (by decide)).2.1,
    by decide⟩

/-! ## Starting twice -/

/-- C3, as stated, fails: a new session started at clock reading 0 keeps
`PomodoroTime = 0`, so a second `StartSession` (here at 7) succeeds as well and moves
`PomodoroTime`. -/
theorem start_twice_at_zero_counterexample :
    (StartSession (CreateSession 1000 500 2000 3 "u1" 0) 0).2 = .ok ∧
    (StartSession (StartSession (CreateSession 1000 500 2000 3 "u1" 0) 0).1 7).2 = .ok ∧
    (StartSession (StartSession (CreateSession 1000 500 2000 3 "u1" 0) 0).1 7).1.PomodoroTime
      ≠ (StartSession (CreateSession 1000 500 2000 3 "u1" 0) 0).1.PomodoroTime := by
  decide

/-- C3 (amended): for every session and every pair of clock readings of which the first is
positive, if the first `StartSession` succeeds then an immediately following
`StartSession` fails with the already-started error and leaves every field of the session
unchanged. -/
theorem start_twice_fails (s : Session) (t1 t2 : Int) (hpos : 0 < t1)
    (hfirst : (StartSession s t1).2 = .ok) :
    StartSession (StartSession s t1).1 t2
      = ((StartSession s t1).1, .error "session already started") := by
  unfold StartSession at hfirst ⊢
  by_cases h : s.PomodoroTime > 0
  · simp [h] at hfirst
  · simp [h, hpos]

/-- C3, witness: a new session started at 5 and again at 9. -/
theorem start_twice_fails_witness :
    (0 : Int) < 5 ∧
    (StartSession (CreateSession 1000 500 2000 3 "u1" 0) 5).2 = .ok ∧
    StartSession (StartSession (CreateSession 1000 500 2000 3 "u1" 0) 5).1 9
      = ((StartSession (CreateSession 1000 500 2000 3 "u1" 0) 5).1,
          .error "session already started") :=
  ⟨by decide, by decide,
    start_twice_fails (CreateSession 1000 500 2000 3 "u1" 0) 5 9 (by decide) (by decide)⟩

/-! ## `PomodoroTime` as the mark of a started session -/

theorem step_PomodoroTime_of_leaves (s : Session) (op : Op) (ops : List Op)
    (h : op.leavesPomodoroTimeToStart = true) :
    ((step s op).1.PomodoroTime = 0 ∧ everStarted (step s op).1 ops = false) ↔
      (s.PomodoroTime = 0 ∧ everStarted s (op :: ops) = false) := by
  cases op <;>
    simp only [Op.leavesPomodoroTimeToStart, Bool.false_eq_true, decide_eq_true_eq] at h <;>
    simp only [step, everStarted, StartSession, PauseSession, StopSession, PingSession,
      JoinSession, PingParticipant, DeleteParticipant, DeleteParticipantInactivity,
      Outcome.succeeded] <;>
    (repeat' split) <;> simp_all

/-- Along calls that leave `PomodoroTime` to `StartSession`, it is 0 at the end iff it
was 0 at the beginning and no `StartSession` succeeded. -/
theorem run_PomodoroTime_of_leaves (s : Session) (ops : List Op)
    (h : ∀ op ∈ ops, op.leavesPomodoroTimeToStart = true) :
    (run s ops).PomodoroTime = 0 ↔ (s.PomodoroTime = 0 ∧ everStarted s ops = false) := by
  induction ops generalizing s with
  | nil => simp [run, everStarted]
  | cons op ops ih =>
    rw [run, ih (step s op).1 (fun o ho => h o (List.mem_cons_of_mem _ ho))]
    exact step_PomodoroTime_of_leaves s op ops (h op (List.mem_cons_self _ _))

/-- C4, as stated, fails in both directions: on a new session a `ResumeSession` at 5 or an
`UpdateSessionPomodoroState` at 1000 sets `PomodoroTime` although no `StartSession` ever
succeeded, and a `StartSession` at clock reading 0 succeeds and leaves `PomodoroTime = 0`. -/
theorem pomodoroTime_zero_iff_never_started_counterexample :
    ¬ ((run (CreateSession 1000 500 2000 3 "u1" 0) [.resume 5]).PomodoroTime = 0 ↔
        everStarted (CreateSession 1000 500 2000 3 "u1" 0) [.resume 5] = false) ∧
    ¬ ((run (CreateSession 1000 500 2000 3 "u1" 0) [.update 1000]).PomodoroTime = 0 ↔
        everStarted (CreateSession 1000 500 2000 3 "u1" 0) [.update 1000] = false) ∧
    ¬ ((run (CreateSession 1000 500 2000 3 "u1" 0) [.start 0]).PomodoroTime = 0 ↔
        everStarted (CreateSession 1000 500 2000 3 "u1" 0) [.start 0] = false) := by
  decide

/-- All that writes `PomodoroTime` is a call that assigns it. -/
theorem step_PomodoroTime_of_not_assigns (s : Session) (op : Op)
    (h : assignsPomodoroTime s op = false) :
    (step s op).1.PomodoroTime = s.PomodoroTime := by
  cases op <;> cases hph : s.PomodoroState <;>
    simp only [assignsPomodoroTime, step, StartSession, PauseSession, ResumeSession,
      StopSession, UpdateSessionPomodoroState, PingSession, JoinSession, PingParticipant,
      DeleteParticipant, DeleteParticipantInactivity, Session.phaseDuration, hph] at h ⊢ <;>
    (repeat' (first | rfl | split)) <;>
    simp_all [Outcome.succeeded]

theorem run_PomodoroTime_of_not_assigned (s : Session) (ops : List Op)
    (h : everAssigned s ops = false) : (run s ops).PomodoroTime = s.PomodoroTime := by
  induction ops generalizing s with
  | nil => rfl
  | cons op ops ih =>
    simp only [everAssigned, Bool.or_eq_false_iff] at h
    rw [run, ih (step s op).1 h.2, step_PomodoroTime_of_not_assigns s op h.1]

/-- C4 (amended): in every state reached from a session returned by `CreateSession` by
any sequence of `StartSession` at clock readings other than 0, `PauseSession`,
`StopSession`, `PingSession`, `JoinSession`, `PingParticipant`, `DeleteParticipant` and
`DeleteParticipantInactivity` at any clock readings, `PomodoroTime == 0` if and only if
`StartSession` has never succeeded on that session; and along any sequence of all ten
operations `PomodoroTime` is still 0 as long as no `StartSession` or `ResumeSession` has
succeeded and no `UpdateSessionPomodoroState` has advanced the phase. -/
theorem pomodoroTime_zero_iff_never_started (f b l n : Int) (owner : String) (t0 : Int)
    (ops : List Op) :
    ((∀ op ∈ ops, op.leavesPomodoroTimeToStart = true) →
      ((run (CreateSession f b l n owner t0) ops).PomodoroTime = 0 ↔
        everStarted (CreateSession f b l n owner t0) ops = false)) ∧
    (everAssigned (CreateSession f b l n owner t0) ops = false →
      (run (CreateSession f b l n owner t0) ops).PomodoroTime = 0) := by
  constructor
  · intro h
    rw [run_PomodoroTime_of_leaves _ ops h]
    exact ⟨fun h' => h'.2, fun h' => ⟨rfl, h'⟩⟩
  · intro h
    rw [run_PomodoroTime_of_not_assigned _ ops h]
    rfl

/-- C4, witness: a session that is paused, started at 5, stopped, joined and paused
again has been started and has `PomodoroTime = 5`; a session that is only paused,
stopped and checked before the focus duration has elapsed has `PomodoroTime = 0`. -/
theorem pomodoroTime_zero_iff_never_started_witness :
    (∀ op ∈ [Op.pause 3, .start 5, .stop, .join "p1" 6, .start 7, .pause 8],
      op.leavesPomodoroTimeToStart = true) ∧
    ((run (CreateSession 1000 500 2000 3 "u1" 0)
        [.pause 3, .start 5, .stop, .join "p1" 6, .start 7, .pause 8]).PomodoroTime = 0 ↔
      everStarted (CreateSession 1000 500 2000 3 "u1" 0)
        [.pause 3, .start 5, .stop, .join "p1" 6, .start 7, .pause 8] = false) ∧
    (run (CreateSession 1000 500 2000 3 "u1" 0)
      [.pause 3, .start 5, .stop, .join "p1" 6, .start 7, .pause 8]).PomodoroTime = 5 ∧
    everAssigned (CreateSession 1000 500 2000 3 "u1" 0) [.pause 3, .stop, .update 999]
      = false ∧
    (run (CreateSession 1000 500 2000 3 "u1" 0) [.pause 3, .stop, .update 999]).PomodoroTime
      = 0 :=
  ⟨by decide,
    (pomodoroTime_zero_iff_never_started 1000 500 2000 3 "u1" 0
      [.pause 3, .start 5, .stop, .join "p1" 6, .start 7, .pause 8]).1 (by decide),
    by decide, by decide,
    (pomodoroTime_zero_iff_never_started 1000 500 2000 3 "u1" 0
      [.pause 3, .stop, .update 999]).2 (by decide)⟩

/-! ## Idempotence of the phase-advance check -/

/-- While no threshold is crossed the check returns the session as it is. -/
theorem update_eq_self_of_lt (s : Session) (now : Int)
    (h : now < add64 s.PomodoroTime s.phaseDuration) :
    UpdateSessionPomodoroState s now = (s, .ok) := by
  unfold UpdateSessionPomodoroState
  unfold Session.phaseDuration at h
  cases hph : s.PomodoroState <;> simp_all

/-- C5, as stated, fails.  First conjuncts: the three durations are the largest `int64`
(positive); started at 1000 and checked at 1000, `PomodoroTime + duration` wraps around
below `now`, so the first call enters BREAK and the second call FOCUS.  Last conjuncts:
with positive durations and `NumFocusPerLongBreak = 0` both calls at 1000 panic after
incrementing the counter, which is 1 after one call and 2 after two. -/
theorem update_idempotent_counterexample :
    (0 < longestDurations.FocusDuration ∧ 0 < longestDurations.BreakDuration ∧
      0 < longestDurations.LongBreakDuration ∧ isInt64 longestDurations.FocusDuration) ∧
    (UpdateSessionPomodoroState longestDurations 1000).1.PomodoroState = .BREAK ∧
    (UpdateSessionPomodoroState
      (UpdateSessionPomodoroState longestDurations 1000).1 1000).1.PomodoroState = .FOCUS ∧
    (UpdateSessionPomodoroState
        (UpdateSessionPomodoroState longestDurations 1000).1 1000).1
      ≠ (UpdateSessionPomodoroState longestDurations 1000).1 ∧
    (0 < (startedAtZero 0).FocusDuration ∧ 0 < (startedAtZero 0).BreakDuration ∧
      0 < (startedAtZero 0).LongBreakDuration) ∧
    (UpdateSessionPomodoroState (startedAtZero 0) 1000).1.Counter = 1 ∧
    (UpdateSessionPomodoroState
      (UpdateSessionPomodoroState (startedAtZero 0) 1000).1 1000).1.Counter = 2 ∧
    (UpdateSessionPomodoroState
        (UpdateSessionPomodoroState (startedAtZero 0) 1000).1 1000).1
      ≠ (UpdateSessionPomodoroState (startedAtZero 0) 1000).1 := by
  refine ⟨by decide, by decide, by decide, fun h => ?_, by decide, by decide, by decide,
    fun h => ?_⟩
  · exact absurd (congrArg Session.PomodoroState h) (by decide)
  · exact absurd (congrArg Session.Counter h) (by decide)

/-- C5 (amended): for every session with positive durations and a non-zero
`NumFocusPerLongBreak`, and every clock reading `now` such that `now` plus each of the
three durations is still an `int64`, calling `UpdateSessionPomodoroState` twice at `now`
yields the same session as calling it once (and the second call returns `nil`); and for
every session at all, whenever no threshold is crossed
(`now < PomodoroTime + duration of the current phase`), any number of calls leave every
field unchanged. -/
theorem update_idempotent (s : Session) (now : Int) :
    (0 < s.FocusDuration → 0 < s.BreakDuration → 0 < s.LongBreakDuration →
      s.NumFocusPerLongBreak ≠ 0 → isInt64 now →
      now + s.FocusDuration < 2 ^ 63 → now + s.BreakDuration < 2 ^ 63 →
      now + s.LongBreakDuration < 2 ^ 63 →
      UpdateSessionPomodoroState (UpdateSessionPomodoroState s now).1 now
        = ((UpdateSessionPomodoroState s now).1, .ok)) ∧
    (now < add64 s.PomodoroTime s.phaseDuration →
      ∀ k : Nat, run s (List.replicate k (.update now)) = s) := by
  constructor
  · intro hF hB hL hN hnow hoF hoB hoL
    by_cases hlt : now < add64 s.PomodoroTime s.phaseDuration
    · rw [update_eq_self_of_lt s now hlt, update_eq_self_of_lt s now hlt]
    · apply update_eq_self_of_lt
      have key : ∀ d : Int, 0 < d → now + d < 2 ^ 63 → now < add64 now d := by
        intro d hd ho
        unfold isInt64 at hnow
        unfold add64 wrap64
        omega
      unfold UpdateSessionPomodoroState Session.phaseDuration at hlt ⊢
      cases hph : s.PomodoroState <;> simp only [hph] at hlt ⊢ <;>
        simp only [if_true, if_false, hlt, hN, reduceCtorEq] <;>
        (try split) <;>
        first
          | exact key _ hF hoF
          | exact key _ hB hoB
          | exact key _ hL hoL
  · intro hlt k
    induction k with
    | zero => rfl
    | succ k ih =>
      rw [List.replicate_succ, run]
      show run (UpdateSessionPomodoroState s now).1 _ = s
      rw [update_eq_self_of_lt s now hlt]
      exact ih

/-- C5, witness: the session of the end-to-end scenario checked twice at 1000 (threshold
crossed) and any number of times at 999 (not crossed). -/
theorem update_idempotent_witness :
    (0 < (startedAtZero 3).FocusDuration ∧ 0 < (startedAtZero 3).BreakDuration ∧
      0 < (startedAtZero 3).LongBreakDuration ∧ (startedAtZero 3).NumFocusPerLongBreak ≠ 0 ∧
      isInt64 1000 ∧ 1000 + (startedAtZero 3).FocusDuration < 2 ^ 63 ∧
      1000 + (startedAtZero 3).BreakDuration < 2 ^ 63 ∧
      1000 + (startedAtZero 3).LongBreakDuration < 2 ^ 63) ∧
    UpdateSessionPomodoroState (UpdateSessionPomodoroState (startedAtZero 3) 1000).1 1000
      = ((UpdateSessionPomodoroState (startedAtZero 3) 1000).1, .ok) ∧
    (UpdateSessionPomodoroState (startedAtZero 3) 1000).1.PomodoroState = .BREAK ∧
    (999 : Int) < add64 (startedAtZero 3).PomodoroTime (startedAtZero 3).phaseDuration ∧
    run (startedAtZero 3) (List.replicate 4 (.update 999)) = startedAtZero 3 :=
  ⟨by decide,
    (update_idempotent (startedAtZero 3) 1000).1 (by decide) (by decide) (by decide)
      (by decide) (by decide) (by decide) (by decide) (by decide),
    by decide, by decide,
    (update_idempotent (startedAtZero 3) 999).2 (by decide) 4⟩

/-! ## The roster of participants -/

theorem step_Participants (s : Session) (p : String) (op : Op) :
    ((step s op).1.Participants p).isSome
      = (if joins s p op then true
          else if removes s p op then false else (s.Participants p).isSome) := by
  cases op with
  | join q now =>
    by_cases hq : q = p
    · subst hq
      cases hp : s.Participants q <;>
        simp [step, joins, removes, JoinSession, hp, Outcome.succeeded]
    · cases hp : s.Participants q <;>
        simp [step, joins, removes, JoinSession, hp, Outcome.succeeded, hq,
          Function.update_noteq (Ne.symm hq)]
  | pingParticipant q now =>
    by_cases hq : q = p
    · subst hq
      cases hp : s.Participants q <;> simp [step, joins, removes, PingParticipant, hp]
    · cases hp : s.Participants q <;>
        simp [step, joins, removes, PingParticipant, hp, Function.update_noteq (Ne.symm hq)]
  | deleteParticipant q =>
    by_cases hq : q = p
    · subst hq
      cases hp : s.Participants q <;> simp [step, joins, removes, DeleteParticipant, hp]
    · cases hp : s.Participants q <;>
        simp [step, joins, removes, DeleteParticipant, hp, hq,
          Function.update_noteq (Ne.symm hq)]
  | deleteParticipantInactivity q now =>
    by_cases hq : q = p
    · subst hq
      cases hp : s.Participants q with
      | none => simp [step, joins, removes, DeleteParticipantInactivity, hp]
      | some lastPing =>
        by_cases hlt : now < add64 lastPing 300000 <;>
          simp [step, joins, removes, DeleteParticipantInactivity, DeleteParticipant, hp, hlt]
    · cases hp : s.Participants q with
      | none => simp [step, joins, removes, DeleteParticipantInactivity, hp, hq]
      | some lastPing =>
        by_cases hlt : now < add64 lastPing 300000 <;>
          simp [step, joins, removes, DeleteParticipantInactivity, DeleteParticipant, hp, hlt,
            hq, Function.update_noteq (Ne.symm hq)]
  | start now => simp only [step, joins, removes, StartSession]; split <;> simp
  | pause now => simp only [step, joins, removes, PauseSession]; split <;> simp
  | resume now => simp only [step, joins, removes, ResumeSession]; split <;> simp
  | stop => simp only [step, joins, removes, StopSession]; split <;> simp
  | update now =>
    simp only [step, joins, removes, UpdateSessionPomodoroState, Bool.false_eq_true, if_false]
    repeat' (first | rfl | split)
  | ping now => simp [step, joins, removes, PingSession]

/-- Along any sequence of calls, `p` is a key at the end iff it has joined and has not
since been removed, where `p` counts as joined at the beginning iff it is a key there. -/
theorem run_Participants (s : Session) (p : String) (ops : List Op) :
    ((run s ops).Participants p).isSome
      = joinedNotRemoved p (s.Participants p).isSome s ops := by
  induction ops generalizing s with
  | nil => rfl
  | cons op ops ih => rw [run, joinedNotRemoved, ih (step s op).1, step_Participants]

/-- C6: for every session, participant id `p` and clock reading `now`: `JoinSession(p)`
fails iff `p` is already a key and otherwise adds `p` with timestamp `now`;
`PingParticipant(p)`, `DeleteParticipant(p)` and `DeleteParticipantInactivity(p)` fail iff
`p` is not a key; a failing call leaves the session unchanged; a successful call changes
nothing but the entry of `p` (ping sets it to `now`, `DeleteParticipant` removes it,
`DeleteParticipantInactivity` removes it exactly when it returns `true`).  Consequently,
along any sequence of calls on a new session, `p` is a key iff it has joined and has not
since been removed. -/
theorem roster_contract (s : Session) (p : String) (now : Int) :
    ((JoinSession s p now).2.failed = true ↔ (s.Participants p).isSome = true) ∧
    ((JoinSession s p now).2.failed = false →
      (JoinSession s p now).2 = .ok ∧ (JoinSession s p now).1.Participants p = some now) ∧
    ((PingParticipant s p now).2.failed = true ↔ s.Participants p = none) ∧
    ((PingParticipant s p now).2.failed = false →
      (PingParticipant s p now).2 = .ok ∧
      (PingParticipant s p now).1.Participants p = some now) ∧
    ((DeleteParticipant s p).2.2.failed = true ↔ s.Participants p = none) ∧
    ((DeleteParticipant s p).2.2.failed = false →
      (DeleteParticipant s p).2.2 = .ok ∧ (DeleteParticipant s p).2.1 = true ∧
      (DeleteParticipant s p).1.Participants p = none) ∧
    ((DeleteParticipantInactivity s p now).2.2.failed = true ↔ s.Participants p = none) ∧
    ((DeleteParticipantInactivity s p now).2.2.failed = false →
      (DeleteParticipantInactivity s p now).2.2 = .ok ∧
      ((DeleteParticipantInactivity s p now).2.1 = true ↔
        (DeleteParticipantInactivity s p now).1.Participants p = none) ∧
      ((DeleteParticipantInactivity s p now).2.1 = false →
        (DeleteParticipantInactivity s p now).1 = s)) ∧
    ((JoinSession s p now).2.failed = true → (JoinSession s p now).1 = s) ∧
    ((PingParticipant s p now).2.failed = true → (PingParticipant s p now).1 = s) ∧
    ((DeleteParticipant s p).2.2.failed = true →
      (DeleteParticipant s p).1 = s ∧ (DeleteParticipant s p).2.1 = false) ∧
    ((DeleteParticipantInactivity s p now).2.2.failed = true →
      (DeleteParticipantInactivity s p now).1 = s ∧
      (DeleteParticipantInactivity s p now).2.1 = false) ∧
    (∀ r ∈ [(JoinSession s p now).1, (PingParticipant s p now).1, (DeleteParticipant s p).1,
        (DeleteParticipantInactivity s p now).1],
      { r with Participants := s.Participants } = s ∧
      ∀ q, q ≠ p → r.Participants q = s.Participants q) ∧
    (∀ (f b l n : Int) (owner : String) (t0 : Int) (ops : List Op),
      ((run (CreateSession f b l n owner t0) ops).Participants p).isSome
        = joinedNotRemoved p false (CreateSession f b l n owner t0) ops) := by
  have hupd : ∀ (v : Option Int) (q : String), q ≠ p →
      Function.update s.Participants p v q = s.Participants q := by
    intro v q hq
    simp [Function.update, hq]
  refine ⟨?_, ?_, ?_, ?_, ?_, ?_, ?_, ?_, ?_, ?_, ?_, ?_, ?_, ?_⟩
  · cases hp : s.Participants p <;> simp [JoinSession, hp, Outcome.failed]
  · cases hp : s.Participants p <;> simp [JoinSession, hp, Outcome.failed]
  · cases hp : s.Participants p <;> simp [PingParticipant, hp, Outcome.failed]
  · cases hp : s.Participants p <;> simp [PingParticipant, hp, Outcome.failed]
  · cases hp : s.Participants p <;> simp [DeleteParticipant, hp, Outcome.failed]
  · cases hp : s.Participants p <;> simp [DeleteParticipant, hp, Outcome.failed]
  · cases hp : s.Participants p with
    | none => simp [DeleteParticipantInactivity, hp, Outcome.failed]
    | some lastPing =>
      by_cases hlt : now < add64 lastPing 300000 <;>
        simp [DeleteParticipantInactivity, DeleteParticipant, hp, hlt, Outcome.failed]
  · cases hp : s.Participants p with
    | none => simp [DeleteParticipantInactivity, hp, Outcome.failed]
    | some lastPing =>
      by_cases hlt : now < add64 lastPing 300000 <;>
        simp [DeleteParticipantInactivity, DeleteParticipant, hp, hlt, Outcome.failed]
  · cases hp : s.Participants p <;> simp [JoinSession, hp, Outcome.failed]
  · cases hp : s.Participants p <;> simp [PingParticipant, hp, Outcome.failed]
  · cases hp : s.Participants p <;> simp [DeleteParticipant, hp, Outcome.failed]
  · cases hp : s.Participants p with
    | none => simp [DeleteParticipantInactivity, hp, Outcome.failed]
    | some lastPing =>
      by_cases hlt : now < add64 lastPing 300000 <;>
        simp [DeleteParticipantInactivity, DeleteParticipant, hp, hlt, Outcome.failed]
  · intro r hr
    simp only [List.mem_cons, List.mem_singleton, List.not_mem_nil, or_false] at hr
    rcases hr with rfl | rfl | rfl | rfl
    · cases hp : s.Participants p <;> simp [JoinSession, hp]
      exact hupd _
    · cases hp : s.Participants p <;> simp [PingParticipant, hp]
      exact hupd _
    · cases hp : s.Participants p <;> simp [DeleteParticipant, hp]
      exact hupd _
    · cases hp : s.Participants p with
      | none => simp [DeleteParticipantInactivity, hp]
      | some lastPing =>
        by_cases hlt : now < add64 lastPing 300000
        · simp [DeleteParticipantInactivity, hp, hlt]
        · simp [DeleteParticipantInactivity, DeleteParticipant, hp, hlt]
          exact hupd _
  · intro f b l n owner t0 ops
    exact run_Participants (CreateSession f b l n owner t0) p ops

/-- C6, witness: on a new session `join("p1")` succeeds, a second `join("p1")` fails and
leaves the session as it was, and `pingParticipant("p2")` fails. -/
theorem roster_contract_witness :
    (JoinSession (CreateSession 1000 500 2000 3 "u1" 0) "p1" 5).2 = .ok ∧
    (JoinSession (JoinSession (CreateSession 1000 500 2000 3 "u1" 0) "p1" 5).1 "p1" 6).2.failed
      = true ∧
    (JoinSession (JoinSession (CreateSession 1000 500 2000 3 "u1" 0) "p1" 5).1 "p1" 6).1
      = (JoinSession (CreateSession 1000 500 2000 3 "u1" 0) "p1" 5).1 ∧
    (PingParticipant (JoinSession (CreateSession 1000 500 2000 3 "u1" 0) "p1" 5).1 "p2" 7).2.failed
      = true ∧
    (PingParticipant (JoinSession (CreateSession 1000 500 2000 3 "u1" 0) "p1" 5).1 "p2" 7).1
      = (JoinSession (CreateSession 1000 500 2000 3 "u1" 0) "p1" 5).1 ∧
    ((run (CreateSession 1000 500 2000 3 "u1" 0)
        [.join "p1" 5, .join "p2" 6, .deleteParticipant "p1"]).Participants "p1").isSome
      = false :=
  ⟨by decide, by decide,
    (roster_contract (JoinSession (CreateSession 1000 500 2000 3 "u1" 0) "p1" 5).1
      "p1" 6).2.2.2.2.2.2.2.2.1 (by decide),
    by decide,
    (roster_contract (JoinSession (CreateSession 1000 500 2000 3 "u1" 0) "p1" 5).1
      "p2" 7).2.2.2.2.2.2.2.2.2.1 (by decide),
    by decide⟩

/-! ## Inactivity -/

/-- C7: the inactivity threshold is 300000 ms, inclusive.  For every session and clock
reading `now`, `StopSessionInactivity` returns `true` iff `now >= LastPing + 300000`
(the sum being the `int64` sum, which is the plain sum whenever that fits in an `int64`),
never returns an error and does not change the session; it returns `false` at
`LastPing + 299999` and `true` at `LastPing + 300000`; and for every participant `p`
present in the session, `DeleteParticipantInactivity(p)` returns `true` iff
`now >= Participants[p] + 300000`. -/
theorem inactivity_threshold (s : Session) (now : Int) :
    ((StopSessionInactivity s now).2.1 = true ↔ add64 s.LastPing 300000 ≤ now) ∧
    (StopSessionInactivity s now).2.2 = .ok ∧
    (StopSessionInactivity s now).1 = s ∧
    (StopSessionInactivity s (add64 s.LastPing 300000)).2.1 = true ∧
    (isInt64 (s.LastPing + 300000) →
      ((StopSessionInactivity s now).2.1 = true ↔ s.LastPing + 300000 ≤ now) ∧
      (StopSessionInactivity s (s.LastPing + 299999)).2.1 = false ∧
      (StopSessionInactivity s (s.LastPing + 300000)).2.1 = true) ∧
    (∀ (p : String) (lastPing : Int), s.Participants p = some lastPing →
      ((DeleteParticipantInactivity s p now).2.1 = true ↔ add64 lastPing 300000 ≤ now) ∧
      (isInt64 (lastPing + 300000) →
        ((DeleteParticipantInactivity s p now).2.1 = true ↔ lastPing + 300000 ≤ now))) := by
  have hstop : ∀ t : Int, ((StopSessionInactivity s t).2.1 = true ↔ add64 s.LastPing 300000 ≤ t) := by
    intro t
    unfold StopSessionInactivity
    split <;> simp <;> omega
  have hdel : ∀ (p : String) (lastPing : Int), s.Participants p = some lastPing →
      ((DeleteParticipantInactivity s p now).2.1 = true ↔ add64 lastPing 300000 ≤ now) := by
    intro p lastPing hp
    by_cases hlt : now < add64 lastPing 300000
    · simp [DeleteParticipantInactivity, hp, hlt]
    · simp [DeleteParticipantInactivity, DeleteParticipant, hp, hlt]
      omega
  refine ⟨hstop now, ?_, ?_, (hstop _).mpr (le_refl _), ?_, ?_⟩
  · unfold StopSessionInactivity; split <;> rfl
  · unfold StopSessionInactivity; split <;> rfl
  · intro h
    have hw : add64 s.LastPing 300000 = s.LastPing + 300000 := wrap64_of_isInt64 h
    refine ⟨by rw [hstop, hw], ?_, by rw [hstop, hw]⟩
    have := hstop (s.LastPing + 299999)
    rw [hw] at this
    cases hb : (StopSessionInactivity s (s.LastPing + 299999)).2.1
    · rfl
    · have := this.mp hb
      omega
  · intro p lastPing hp
    refine ⟨hdel p lastPing hp, fun h => ?_⟩
    have hw : add64 lastPing 300000 = lastPing + 300000 := wrap64_of_isInt64 h
    rw [hdel p lastPing hp, hw]

/-- C7, witness: a session last pinged at 1000 is active at 300999 and inactive at
301000; so is a participant who joined at 1000. -/
theorem inactivity_threshold_witness :
    isInt64 ((CreateSession 1000 500 2000 3 "u1" 1000).LastPing + 300000) ∧
    (StopSessionInactivity (CreateSession 1000 500 2000 3 "u1" 1000)
      ((CreateSession 1000 500 2000 3 "u1" 1000).LastPing + 299999)).2.1 = false ∧
    (StopSessionInactivity (CreateSession 1000 500 2000 3 "u1" 1000) 300999).2.1 = false ∧
    (StopSessionInactivity (CreateSession 1000 500 2000 3 "u1" 1000) 301000).2.1 = true ∧
    (DeleteParticipantInactivity
      (JoinSession (CreateSession 1000 500 2000 3 "u1" 1000) "p1" 1000).1 "p1" 300999).2.1
      = false ∧
    (DeleteParticipantInactivity
      (JoinSession (CreateSession 1000 500 2000 3 "u1" 1000) "p1" 1000).1 "p1" 301000).2.1
      = true :=
  ⟨by decide,
    ((inactivity_threshold (CreateSession 1000 500 2000 3 "u1" 1000) 0).2.2.2.2.1
      (by decide)).2.1,
    by decide, by decide, by decide, by decide⟩

/-! ## The session store -/

/-- C8: the store is a finite map keyed by `Session.Owner`.  For every store, session `s`
and id: `CreateSession(s)` succeeds and afterwards `GetSession(s.Owner)` returns `s`,
whatever was stored under that owner before, while lookups of every other id are as
before; `GetSession(id)` fails iff there is no entry for `id` and returns the entry
otherwise; `DeleteSession(id)` succeeds, afterwards `GetSession(id)` fails, lookups of
other ids are as before, and the store is unchanged when `id` was absent. -/
theorem store_is_finite_map (db : MockDatabase) (s : Session) (id : String) :
    (db.CreateSession s).2 = .ok ∧
    (db.CreateSession s).1.GetSession s.Owner = (some s, .ok) ∧
    (∀ other : String, other ≠ s.Owner →
      (db.CreateSession s).1.GetSession other = db.GetSession other) ∧
    ((db.GetSession id).2.failed = true ↔ db.Sessions id = none) ∧
    (∀ x : Session, db.Sessions id = some x → db.GetSession id = (some x, .ok)) ∧
    (db.DeleteSession id).2 = .ok ∧
    ((db.DeleteSession id).1.GetSession id).2.failed = true ∧
    ((db.DeleteSession id).1.GetSession id).1 = none ∧
    (∀ other : String, other ≠ id →
      (db.DeleteSession id).1.GetSession other = db.GetSession other) ∧
    (db.Sessions id = none → (db.DeleteSession id).1 = db) := by
  refine ⟨rfl, ?_, ?_, ?_, ?_, rfl, ?_, ?_, ?_, ?_⟩
  · simp [MockDatabase.CreateSession, MockDatabase.GetSession]
  · intro other hne
    simp [MockDatabase.CreateSession, MockDatabase.GetSession, Function.update, hne]
  · cases h : db.Sessions id <;> simp [MockDatabase.GetSession, h, Outcome.failed]
  · intro x hx
    simp [MockDatabase.GetSession, hx]
  · simp [MockDatabase.DeleteSession, MockDatabase.GetSession, Outcome.failed]
  · simp [MockDatabase.DeleteSession, MockDatabase.GetSession]
  · intro other hne
    simp [MockDatabase.DeleteSession, MockDatabase.GetSession, Function.update, hne]
  · intro h
    cases db with
    | mk sessions =>
      simp only [MockDatabase.DeleteSession, MockDatabase.mk.injEq]
      funext k
      by_cases hk : k = id
      · subst hk
        simpa [Function.update] using h.symm
      · simp [Function.update, hk]

/-- C8, witness: deleting an id that has no entry leaves the store of "u1" as it is, and
the session of "u1" is still found. -/
theorem store_is_finite_map_witness :
    (storeWith (startedAtZero 3)).Sessions "u2" = none ∧
    ((storeWith (startedAtZero 3)).DeleteSession "u2").1 = storeWith (startedAtZero 3) ∧
    (((storeWith (startedAtZero 3)).DeleteSession "u2").1.GetSession "u1").2 = .ok ∧
    ((storeWith (startedAtZero 3)).GetSession "u2").2.failed = true :=
  ⟨by rfl,
    (store_is_finite_map (storeWith (startedAtZero 3)) (startedAtZero 3)
      "u2").2.2.2.2.2.2.2.2.2 (by rfl),
    by decide, by decide⟩

/-! ## The resume handler -/

/-- What the handler does to a session found in the store: it applies `PauseSession`. -/
theorem resumeSessionEndpoint_applies_pause (db : MockDatabase) (id : String)
    (session : Session) (now : Int) (h : db.Sessions id = some session) :
    (resumeSessionEndpoint db (some id) now).1.Sessions id
      = some (PauseSession session now).1 := by
  unfold resumeSessionEndpoint MockDatabase.GetSession
  simp only [h]
  unfold PauseSession
  split_ifs <;> simp

/-- C9, the code at the failing input: for the session of "u1", IN_PROGRESS since 0, the
handler at 400 answers 200 and leaves the session PAUSED with `PauseDelta = 400`, where
`ResumeSession` returns the already-in-progress error and leaves the session IN_PROGRESS;
and when the session is PAUSED the handler answers 400 and leaves it PAUSED, where
`ResumeSession` succeeds and leaves it IN_PROGRESS. -/
theorem resumeSessionEndpoint_pauses_in_progress_session :
    (startedAtZero 3).ActivityState = .IN_PROGRESS ∧
    (resumeSessionEndpoint (storeWith (startedAtZero 3)) (some "u1") 400).2
      = .session 200
          { Settings :=
              { FocusDuration := 1000, BreakDuration := 500, LongBreakDuration := 2000,
                NumFocusPerLongBreak := 3 }
            ActivityState := .PAUSED
            PomodoroState := .FOCUS
            PomodoroTime := 0 } ∧
    ((resumeSessionEndpoint (storeWith (startedAtZero 3)) (some "u1") 400).1.Sessions
        "u1").map Session.ActivityState = some .PAUSED ∧
    ((resumeSessionEndpoint (storeWith (startedAtZero 3)) (some "u1") 400).1.Sessions
        "u1").map Session.PauseDelta = some 400 ∧
    (ResumeSession (startedAtZero 3) 400).2 = .error "session already in progress" ∧
    (ResumeSession (startedAtZero 3) 400).1.ActivityState = .IN_PROGRESS ∧
    (resumeSessionEndpoint (storeWith (PauseSession (startedAtZero 3) 400).1) (some "u1") 900).2
      = .failure 400
          { Name := "ResumeSessionError"
            Message := "unable to resume session: activity already paused" } ∧
    ((resumeSessionEndpoint (storeWith (PauseSession (startedAtZero 3) 400).1)
        (some "u1") 900).1.Sessions "u1").map Session.ActivityState = some .PAUSED ∧
    (ResumeSession (PauseSession (startedAtZero 3) 400).1 900).2 = .ok ∧
    (ResumeSession (PauseSession (startedAtZero 3) 400).1 900).1.ActivityState
      = .IN_PROGRESS := by
  decide

/-! ## The phase-advance check and the activity state -/

/-- C10: `UpdateSessionPomodoroState` neither reads nor writes `ActivityState`.  Two
sessions that agree on `PomodoroState`, `PomodoroTime`, `Counter`, the three durations
and `NumFocusPerLongBreak` get, at the same clock reading, the same outcome and the same
`PomodoroState`, `PomodoroTime` and `Counter`; each call leaves `ActivityState`,
`PauseDelta`, `LastPing`, `Participants`, `Owner` and the settings unchanged; and
replacing the `ActivityState` of a session changes nothing else in the result of the
call. -/
theorem update_ignores_activity_state (s1 s2 : Session) (now : Int)
    (hState : s1.PomodoroState = s2.PomodoroState)
    (hTime : s1.PomodoroTime = s2.PomodoroTime)
    (hCounter : s1.Counter = s2.Counter)
    (hFocus : s1.FocusDuration = s2.FocusDuration)
    (hBreak : s1.BreakDuration = s2.BreakDuration)
    (hLong : s1.LongBreakDuration = s2.LongBreakDuration)
    (hNum : s1.NumFocusPerLongBreak = s2.NumFocusPerLongBreak) :
    ((UpdateSessionPomodoroState s1 now).2 = (UpdateSessionPomodoroState s2 now).2 ∧
      (UpdateSessionPomodoroState s1 now).1.PomodoroState
        = (UpdateSessionPomodoroState s2 now).1.PomodoroState ∧
      (UpdateSessionPomodoroState s1 now).1.PomodoroTime
        = (UpdateSessionPomodoroState s2 now).1.PomodoroTime ∧
      (UpdateSessionPomodoroState s1 now).1.Counter
        = (UpdateSessionPomodoroState s2 now).1.Counter) ∧
    (∀ s ∈ [s1, s2],
      (UpdateSessionPomodoroState s now).1.ActivityState = s.ActivityState ∧
      (UpdateSessionPomodoroState s now).1.PauseDelta = s.PauseDelta ∧
      (UpdateSessionPomodoroState s now).1.LastPing = s.LastPing ∧
      (UpdateSessionPomodoroState s now).1.Participants = s.Participants ∧
      (UpdateSessionPomodoroState s now).1.Owner = s.Owner ∧
      (UpdateSessionPomodoroState s now).1.FocusDuration = s.FocusDuration ∧
      (UpdateSessionPomodoroState s now).1.BreakDuration = s.BreakDuration ∧
      (UpdateSessionPomodoroState s now).1.LongBreakDuration = s.LongBreakDuration ∧
      (UpdateSessionPomodoroState s now).1.NumFocusPerLongBreak = s.NumFocusPerLongBreak) ∧
    (∀ a : ActivityState,
      UpdateSessionPomodoroState { s1 with ActivityState := a } now
        = ({ (UpdateSessionPomodoroState s1 now).1 with ActivityState := a },
            (UpdateSessionPomodoroState s1 now).2)) := by
  refine ⟨?_, ?_, ?_⟩
  · unfold UpdateSessionPomodoroState
    simp only [← hState, ← hTime, ← hCounter, ← hFocus, ← hBreak, ← hLong, ← hNum]
    split_ifs <;> simp [hState, hTime, hCounter]
  · intro s _
    unfold UpdateSessionPomodoroState
    dsimp only
    split_ifs <;> simp
  · intro a
    unfold UpdateSessionPomodoroState
    simp only []
    split_ifs <;> rfl

/-- C10, witness: the session of the end-to-end scenario, in progress and paused at 400,
checked at 1000: both enter BREAK with counter 1 and `PomodoroTime = 1000`, and the
paused one stays PAUSED. -/
theorem update_ignores_activity_state_witness :
    (startedAtZero 3).ActivityState = .IN_PROGRESS ∧
    (PauseSession (startedAtZero 3) 400).1.ActivityState = .PAUSED ∧
    ((UpdateSessionPomodoroState (startedAtZero 3) 1000).2
        = (UpdateSessionPomodoroState (PauseSession (startedAtZero 3) 400).1 1000).2 ∧
      (UpdateSessionPomodoroState (startedAtZero 3) 1000).1.PomodoroState
        = (UpdateSessionPomodoroState (PauseSession (startedAtZero 3) 400).1 1000).1.PomodoroState ∧
      (UpdateSessionPomodoroState (startedAtZero 3) 1000).1.PomodoroTime
        = (UpdateSessionPomodoroState (PauseSession (startedAtZero 3) 400).1 1000).1.PomodoroTime ∧
      (UpdateSessionPomodoroState (startedAtZero 3) 1000).1.Counter
        = (UpdateSessionPomodoroState (PauseSession (startedAtZero 3) 400).1 1000).1.Counter) ∧
    (UpdateSessionPomodoroState (PauseSession (startedAtZero 3) 400).1 1000).1.PomodoroState
      = .BREAK ∧
    (UpdateSessionPomodoroState (PauseSession (startedAtZero 3) 400).1 1000).1.Counter = 1 ∧
    (UpdateSessionPomodoroState (PauseSession (startedAtZero 3) 400).1 1000).1.PomodoroTime
      = 1000 ∧
    (UpdateSessionPomodoroState (PauseSession (startedAtZero 3) 400).1 1000).1.ActivityState
      = .PAUSED :=
  ⟨by decide, by decide,
    (update_ignores_activity_state (startedAtZero 3) (PauseSession (startedAtZero 3) 400).1
      1000 (by decide) (by decide) (by decide) (by decide) (by decide) (by decide)
      (by decide)).1,
    by decide, by decide, by decide, by decide⟩

end FocusTogether
